import Mathlib

/-!
Shallow embedding of the AI Virtual Try-On client (TypeScript/React) in Lean 4.

Each definition mirrors one function or state transition of the source:
  * `src/types.ts` — the `ImageFile` record and the `AspectRatio` tri-state.
  * `src/components/ImageUploader.tsx` — the dimension-constraining and
    aspect-classification logic of `resizeAndProcessImage`.
  * `src/components/ResultDisplay.tsx` — the zoom/pan viewer transitions.
  * `src/hooks/useLocalStorageState.ts` — the persistence layer over
    `localStorage` (the JSON stringify/parse round trip of the host runtime
    is abstracted as exact: the store holds the serialized values themselves).
  * `src/services/geminiService.ts` — `generateVirtualTryOnImage`, with the
    network call abstracted as an outcome parameter.
  * `src/App.tsx` — the session controller: `handleGenerate`,
    `handleToggleFavorite`, `sortedHistory`, and the bounded history insert.

JavaScript numbers are modelled as exact rationals (`ℚ`, the standard
idealization of the host runtime's binary floating point), machine integers
and pixel dimensions as `ℕ`/`ℤ`.
-/

namespace VTO

/-- Source `src/types.ts`: `type AspectRatio = 'portrait' | 'landscape' | 'square'`. -/
inductive AspectRatio where
  | portrait
  | landscape
  | square
  deriving DecidableEq, Repr

/-- Source `src/types.ts`: `interface ImageFile`.  The optional `isFavorite?: boolean`
is modelled as a `Bool` with `undefined ↦ false`, which matches every read of
the field in the source (it is only used in boolean positions). -/
structure ImageFile where
  id : String
  data : String
  mimeType : String
  aspectRatio : AspectRatio
  isFavorite : Bool
  deriving DecidableEq, Repr

/-- JavaScript `Math.round` on a nonnegative value: round half up. -/
def jsRound (q : ℚ) : ℤ := ⌊q + 1/2⌋

/-- Source `src/components/ImageUploader.tsx`: `const MAX_DIMENSION = 1024`. -/
def MAX_DIMENSION : ℕ := 1024

/-- Source `src/components/ImageUploader.tsx`, `resizeAndProcessImage`: the
dimension-constraining step.

```
if (width > MAX_DIMENSION || height > MAX_DIMENSION) {
  if (width > height) {
    height = Math.round((height * MAX_DIMENSION) / width);
    width = MAX_DIMENSION;
  } else {
    width = Math.round((width * MAX_DIMENSION) / height);
    height = MAX_DIMENSION;
  }
}
``` -/
def resizeDimensions (width height : ℕ) : ℕ × ℕ :=
  if MAX_DIMENSION < width ∨ MAX_DIMENSION < height then
    if height < width then
      (MAX_DIMENSION, (jsRound ((height * MAX_DIMENSION : ℚ) / width)).toNat)
    else
      ((jsRound ((width * MAX_DIMENSION : ℚ) / height)).toNat, MAX_DIMENSION)
  else (width, height)

/-- Source `src/components/ImageUploader.tsx`, `resizeAndProcessImage`: the
aspect-ratio classification of the final `width / height` ratio.

```
const ratio = width / height;
let aspectRatio: AspectRatio = 'square';
if (ratio > 1.1) aspectRatio = 'landscape';
else if (ratio < 0.9) aspectRatio = 'portrait';
``` -/
def classifyAspectRatio (ratio : ℚ) : AspectRatio :=
  if 11/10 < ratio then .landscape
  else if ratio < 9/10 then .portrait
  else .square

/-! ## Viewer state machine (`src/components/ResultDisplay.tsx`) -/

/-- Source constant `MAX_ZOOM = 5`. -/
def MAX_ZOOM : ℚ := 5

/-- Source constant `MIN_ZOOM = 1`. -/
def MIN_ZOOM : ℚ := 1

/-- Source constant `ZOOM_STEP = 0.2`. -/
def ZOOM_STEP : ℚ := 2/10

/-- The zoom/pan portion of the viewer's component state:
`useState(1)` for `zoom`, `useState({ x: 0, y: 0 })` for `position`. -/
structure ViewerState where
  zoom : ℚ
  position : ℚ × ℚ
  deriving DecidableEq, Repr

/-- The initial viewer state: `zoom = 1`, `position = { x: 0, y: 0 }`. -/
def initialViewerState : ViewerState := { zoom := 1, position := (0, 0) }

/-- The zoom transitions of the viewer. -/
inductive ZoomOp where
  | zoomIn
  | zoomOut
  | wheel (deltaY : ℚ)
  | reset
  deriving DecidableEq, Repr

/-- Source `src/components/ResultDisplay.tsx`: the four zoom-affecting handlers.

```
const handleZoomIn = () => setZoom(prev => Math.min(prev + ZOOM_STEP, MAX_ZOOM));
const handleZoomOut = () => setZoom(prev => Math.max(prev - ZOOM_STEP, MIN_ZOOM));
const handleResetZoom = () => { setZoom(MIN_ZOOM); setPosition({ x: 0, y: 0 }); };
const handleWheel = (e) => {
  const newZoom = e.deltaY > 0 ? zoom - 0.1 : zoom + 0.1;
  setZoom(Math.max(MIN_ZOOM, Math.min(newZoom, MAX_ZOOM)));
};
``` -/
def viewerStep (s : ViewerState) : ZoomOp → ViewerState
  | .zoomIn => { s with zoom := min (s.zoom + ZOOM_STEP) MAX_ZOOM }
  | .zoomOut => { s with zoom := max (s.zoom - ZOOM_STEP) MIN_ZOOM }
  | .wheel deltaY =>
      { s with zoom := max MIN_ZOOM (min (if 0 < deltaY then s.zoom - 1/10 else s.zoom + 1/10) MAX_ZOOM) }
  | .reset => { zoom := MIN_ZOOM, position := (0, 0) }

/-- Run a sequence of zoom transitions from the initial viewer state. -/
def runViewer (ops : List ZoomOp) : ViewerState := ops.foldl viewerStep initialViewerState

/-! ## Durable state store (`src/hooks/useLocalStorageState.ts`)

`localStorage` holds strings produced by `JSON.stringify` and read back through
`JSON.parse`.  The JSON round trip belongs to the host runtime, not to this
repository; the store is therefore modelled at the value level (it holds the
serialized JSON values themselves), which is faithful because `JSON.stringify`
never produces the empty string (the only falsy string) on a serializable
input, so the hook's `if (storedValue)` truthiness test is equivalent to a
presence test here. -/

/-- A JSON-serializable value, the generic `T` of `useLocalStorageState<T>`. -/
inductive JsValue where
  | null
  | bool (b : Bool)
  | num (q : ℚ)
  | str (s : String)
  | arr (elems : List JsValue)
  | obj (fields : List (String × JsValue))

/-- The hook's erasure test:
`state === null || (Array.isArray(state) && state.length === 0)`. -/
def isEmptySentinel : JsValue → Bool
  | .null => true
  | .arr [] => true
  | _ => false

/-- The browser `localStorage`, one binding per key. -/
abbrev Store := List (String × JsValue)

/-- Models `window.localStorage.getItem(key)`. -/
def getItem (st : Store) (key : String) : Option JsValue :=
  (List.find? (fun kv => kv.1 == key) st).map (·.2)

/-- Models `window.localStorage.setItem(key, value)`: overwrite in place, else append. -/
def setItem (st : Store) (key : String) (v : JsValue) : Store :=
  if List.any st (fun kv => kv.1 == key) then
    List.map (fun kv => if kv.1 == key then (key, v) else kv) st
  else st ++ [(key, v)]

/-- Models `window.localStorage.removeItem(key)`. -/
def removeItem (st : Store) (key : String) : Store :=
  List.filter (fun kv => kv.1 != key) st

/-- Source `src/hooks/useLocalStorageState.ts`, the write-back effect:

```
if (state === null || (Array.isArray(state) && state.length === 0)) {
  window.localStorage.removeItem(key);
} else {
  window.localStorage.setItem(key, JSON.stringify(state));
}
``` -/
def persistState (st : Store) (key : String) (v : JsValue) : Store :=
  if isEmptySentinel v then removeItem st key else setItem st key v

/-- Source `src/hooks/useLocalStorageState.ts`, the initializer:

```
const storedValue = window.localStorage.getItem(key);
if (storedValue) { return JSON.parse(storedValue); }
return defaultValue;
``` -/
def loadState (st : Store) (key : String) (deflt : JsValue) : JsValue :=
  match getItem st key with
  | some v => v
  | none => deflt

/-! ## Generation service (`src/services/geminiService.ts`) -/

/-- One `inlineData` payload of a response part. -/
structure GenInlineData where
  data : String
  mimeType : String
  deriving DecidableEq, Repr

/-- One part of the API response's first candidate's content: either an
`inlineData` image part or some other (e.g. text) part. -/
structure ResponsePart where
  inlineData : Option GenInlineData
  deriving DecidableEq, Repr

/-- The service's success payload, `Omit<ImageFile, 'id' | 'isFavorite'>`. -/
structure GenResult where
  data : String
  mimeType : String
  aspectRatio : AspectRatio
  deriving DecidableEq, Repr

/-- How the awaited `ai.models.generateContent` call resolves: with a response
(whose relevant content is its list of parts), by rejecting with an `Error`
carrying a message, or by rejecting with a non-`Error` value. -/
inductive ApiOutcome where
  | response (parts : List ResponsePart)
  | errorRejection (msg : String)
  | nonErrorRejection
  deriving DecidableEq, Repr

/-- The service's scan for the first image part:
`for (const part of ...parts) { if (part.inlineData) return ...; }`. -/
def findImagePart : List ResponsePart → Option GenInlineData
  | [] => none
  | p :: ps =>
    match p.inlineData with
    | some d => some d
    | none => findImagePart ps

/-- The message of the `Error` thrown when no image part is present. -/
def noImageMessage : String :=
  "API did not return an image. It may have been blocked due to safety settings or an internal error."

/-- Source `src/services/geminiService.ts`, `generateVirtualTryOnImage`: returns the
first `inlineData` part with `aspectRatio: 'portrait'` forced; otherwise throws
inside the `try`, so the `catch` rewraps every `Error` (including its own
no-image error) as `` `Failed to generate image: ${error.message}` ``, and any
non-`Error` rejection as the unknown-error message. -/
def generateVirtualTryOnImage (outcome : ApiOutcome) : Except String GenResult :=
  match outcome with
  | .response parts =>
    match findImagePart parts with
    | some d => .ok { data := d.data, mimeType := d.mimeType, aspectRatio := .portrait }
    | none => .error ("Failed to generate image: " ++ noImageMessage)
  | .errorRejection msg => .error ("Failed to generate image: " ++ msg)
  | .nonErrorRejection => .error "An unknown error occurred during image generation."

/-! ## Session controller (`src/App.tsx`) -/

/-- The session-relevant component state of `App`. -/
structure AppState where
  modelImage : Option ImageFile
  garmentImage : Option ImageFile
  history : List ImageFile
  customPrompt : String
  generatedImage : Option ImageFile
  isLoading : Bool
  error : Option String
  deriving DecidableEq, Repr

/-- JavaScript `a || b` on strings: `b` when `a` is falsy (empty). -/
def jsOrElse (s fallback : String) : String := if s = "" then fallback else s

/-- Source `src/App.tsx`: `setHistory(prev => [newImage, ...prev].slice(0, 5))`. -/
def insertHistory (img : ImageFile) (h : List ImageFile) : List ImageFile :=
  (img :: h).take 5

/-- Source `src/App.tsx`, `handleGenerate`, run to quiescence for one generation
attempt that resolves as `gen`: the guard sets an error and returns if either
slot is empty; otherwise the handler clears `error` and `generatedImage`,
awaits the collaborator (`gen` is the settled result of
`generateVirtualTryOnImage`), and either installs the new image (fresh id from
`Date.now().toString()`, `isFavorite: false`) into `generatedImage` and the
bounded history, or stores `err.message || 'An unknown error occurred.'` in
the error state.  `isLoading` is restored to `false` by the `finally`. -/
def handleGenerate (s : AppState) (now : ℕ) (gen : Except String GenResult) : AppState :=
  match s.modelImage, s.garmentImage with
  | some _, some _ =>
    match gen with
    | .ok resultData =>
      let newImage : ImageFile :=
        { id := toString now
          data := resultData.data
          mimeType := resultData.mimeType
          aspectRatio := resultData.aspectRatio
          isFavorite := false }
      { s with
          error := none
          generatedImage := some newImage
          history := insertHistory newImage s.history
          isLoading := false }
    | .error msg =>
      { s with
          error := some (jsOrElse msg "An unknown error occurred.")
          generatedImage := none
          isLoading := false }
  | _, _ => { s with error := some "Please upload both a person and a garment image." }

/-- Source `src/App.tsx`, `handleToggleFavorite`, effect on `history`:
`history.map(img => img.id === id ? { ...img, isFavorite: !img.isFavorite } : img)`. -/
def toggleFavorite (h : List ImageFile) (tid : String) : List ImageFile :=
  h.map fun img =>
    if img.id = tid then { img with isFavorite := !img.isFavorite } else img

/-- Source `src/App.tsx`, `handleToggleFavorite`: updates the history and, when the
currently displayed image has the toggled id, flips its flag too. -/
def handleToggleFavorite (s : AppState) (tid : String) : AppState :=
  { s with
      history := toggleFavorite s.history tid
      generatedImage :=
        match s.generatedImage with
        | some g =>
          if g.id = tid then some { g with isFavorite := !g.isFavorite } else some g
        | none => none }

/-- JavaScript `parseInt`, restricted to the id strings this application
produces (`Date.now().toString()` and decimal digit strings): `some` of the
decimal value on a nonempty all-digit string, `none` (modelling `NaN`)
otherwise. -/
def parseIntDec (s : String) : Option ℤ :=
  if s.data ≠ [] ∧ s.data.all Char.isDigit then
    some ((s.data.foldl (fun acc c => acc * 10 + (c.toNat - 48)) 0 : ℕ) : ℤ)
  else none

/-- Source `src/App.tsx`, the comparator passed to `sort` in `sortedHistory`:

```
if (a.isFavorite && !b.isFavorite) return -1;
if (!a.isFavorite && b.isFavorite) return 1;
return parseInt(b.id) - parseInt(a.id);
```

A `NaN` subtraction result (either id unparseable) is mapped to `0`, which is
exactly how `Array.prototype.sort`'s `SortCompare` treats a `NaN` comparator
return value. -/
def compareHistory (a b : ImageFile) : ℤ :=
  if a.isFavorite && !b.isFavorite then -1
  else if !a.isFavorite && b.isFavorite then 1
  else
    match parseIntDec b.id, parseIntDec a.id with
    | some nb, some na => nb - na
    | _, _ => 0

/-- Source `src/App.tsx`, `sortedHistory`: `[...history].sort(comparator)`.
`Array.prototype.sort` is a stable sort ordering `a` no later than `b` when
the comparator returns a nonpositive value; `List.mergeSort` is the stable
sort with exactly that contract. -/
def sortedHistory (h : List ImageFile) : List ImageFile :=
  h.mergeSort fun a b => compareHistory a b ≤ 0

/-! ## Helper lemmas -/

/-- Rounding bound: `Math.round` of a nonnegative rational below `n + 1/2` is at most `n`. -/
theorem jsRound_toNat_le {q : ℚ} {n : ℕ} (hq : q < n + 1/2) : (jsRound q).toNat ≤ n := by
  rw [jsRound, Int.toNat_le]
  rw [Int.floor_le_iff]
  push_cast
  linarith

/-- One insertion keeps the history within the bound of 5. -/
theorem length_insertHistory_le (img : ImageFile) (h : List ImageFile) :
    (insertHistory img h).length ≤ 5 := by
  simp [insertHistory]

/-- A sample normalized image used by concrete witnesses. -/
def wNew : ImageFile :=
  { id := "600", data := "new", mimeType := "image/jpeg", aspectRatio := .portrait, isFavorite := false }

/-- A sample full (five-entry) history used by concrete witnesses. -/
def wFive : List ImageFile :=
  [{ id := "105", data := "e5", mimeType := "image/jpeg", aspectRatio := .portrait, isFavorite := true },
   { id := "104", data := "e4", mimeType := "image/jpeg", aspectRatio := .portrait, isFavorite := false },
   { id := "103", data := "e3", mimeType := "image/jpeg", aspectRatio := .portrait, isFavorite := true },
   { id := "102", data := "e2", mimeType := "image/jpeg", aspectRatio := .portrait, isFavorite := false },
   { id := "101", data := "e1", mimeType := "image/jpeg", aspectRatio := .portrait, isFavorite := false }]

/-- A sample session state whose active result (`wNew`) is also the head of
the history, used by concrete witnesses. -/
def wSyncState : AppState :=
  { modelImage := none
    garmentImage := none
    history := [wNew]
    customPrompt := ""
    generatedImage := some wNew
    isLoading := false
    error := none }

/-! ## Claims -/

/-- C3: Aspect classification is a pure function of the final width/height
ratio: ratio > 1.1 yields landscape, ratio < 0.9 yields portrait, and every
ratio in [0.9, 1.1] yields square; in particular 1.15 is landscape, 0.95 is
square, 0.85 is portrait, and exactly 1.0 is square. -/
theorem aspect_classification_pure (r : ℚ) :
    ((11/10 : ℚ) < r → classifyAspectRatio r = .landscape) ∧
    (r < 9/10 → classifyAspectRatio r = .portrait) ∧
    (9/10 ≤ r → r ≤ 11/10 → classifyAspectRatio r = .square) ∧
    classifyAspectRatio (23/20) = .landscape ∧
    classifyAspectRatio (19/20) = .square ∧
    classifyAspectRatio (17/20) = .portrait ∧
    classifyAspectRatio 1 = .square := by
  refine ⟨fun hlt => ?_, fun hlt => ?_, fun h1 h2 => ?_, ?_, ?_, ?_, ?_⟩
  · rw [classifyAspectRatio, if_pos hlt]
  · rw [classifyAspectRatio, if_neg (by linarith), if_pos hlt]
  · rw [classifyAspectRatio, if_neg (by linarith), if_neg (by linarith)]
  · norm_num [classifyAspectRatio]
  · norm_num [classifyAspectRatio]
  · norm_num [classifyAspectRatio]
  · norm_num [classifyAspectRatio]

/-- Witness for C3 at concrete ratios. -/
theorem aspect_classification_pure_witness :
    classifyAspectRatio (6/5) = .landscape ∧
    classifyAspectRatio (1/2) = .portrait ∧
    classifyAspectRatio 1 = .square :=
  ⟨(aspect_classification_pure (6/5)).1 (by norm_num),
   (aspect_classification_pure (1/2)).2.1 (by norm_num),
   (aspect_classification_pure 1).2.2.1 (by norm_num) (by norm_num)⟩

/-- C4: For every history of length at most 5, inserting a new generated image
places it at the front and the resulting history has length at most 5; when
the history already has 5 entries the tail entry is evicted regardless of any
entry's favorite flag, so history length never exceeds 5 under any number of
insertions. -/
theorem history_bounded (img : ImageFile) (h : List ImageFile) (hlen : h.length ≤ 5) :
    (insertHistory img h).head? = some img ∧
    (insertHistory img h).length ≤ 5 ∧
    (h.length = 5 → insertHistory img h = img :: h.dropLast) ∧
    ∀ imgs : List ImageFile, (imgs.foldl (fun acc i => insertHistory i acc) h).length ≤ 5 := by
  refine ⟨?_, length_insertHistory_le img h, fun h5 => ?_, fun imgs => ?_⟩
  · simp [insertHistory]
  · rw [insertHistory, List.dropLast_eq_take, h5, List.take_succ_cons]
  · induction imgs generalizing h with
    | nil => exact hlen
    | cons i rest ih => exact ih (insertHistory i h) (length_insertHistory_le i h)

/-- Witness for C4 on a concrete full history. -/
theorem history_bounded_witness :
    (insertHistory wNew wFive).head? = some wNew ∧
    insertHistory wNew wFive = wNew :: wFive.dropLast ∧
    ([wNew, wNew].foldl (fun acc i => insertHistory i acc) wFive).length ≤ 5 := by
  obtain ⟨h1, _, h3, h4⟩ := history_bounded wNew wFive (by decide)
  exact ⟨h1, h3 (by decide), h4 [wNew, wNew]⟩

/-- C8: After any sequence of viewer zoom transitions (wheel deltas or the
fixed-step zoom-in/zoom-out controls) the zoom value always lies in
[1.0, 5.0], and the reset-view transition from any state with zoom > 1 or
pan ≠ origin yields exactly zoom = 1.0 and pan = origin. -/
theorem viewer_zoom_clamped :
    (∀ ops : List ZoomOp, MIN_ZOOM ≤ (runViewer ops).zoom ∧ (runViewer ops).zoom ≤ MAX_ZOOM) ∧
    ∀ s : ViewerState, 1 < s.zoom ∨ s.position ≠ (0, 0) →
      viewerStep s .reset = initialViewerState := by
  constructor
  · have step : ∀ (s : ViewerState) (op : ZoomOp),
        MIN_ZOOM ≤ s.zoom → s.zoom ≤ MAX_ZOOM →
        MIN_ZOOM ≤ (viewerStep s op).zoom ∧ (viewerStep s op).zoom ≤ MAX_ZOOM := by
      intro s op h1 h2
      rw [MIN_ZOOM] at h1 ⊢
      rw [MAX_ZOOM] at h2 ⊢
      cases op with
      | zoomIn =>
        simp only [viewerStep, MAX_ZOOM, ZOOM_STEP]
        exact ⟨le_min (by linarith) (by norm_num), min_le_right _ _⟩
      | zoomOut =>
        simp only [viewerStep, MIN_ZOOM, ZOOM_STEP]
        exact ⟨le_max_right _ _, max_le (by linarith) (by norm_num)⟩
      | wheel d =>
        simp only [viewerStep, MIN_ZOOM, MAX_ZOOM]
        exact ⟨le_max_left _ _, max_le (by norm_num) (min_le_right _ _)⟩
      | reset =>
        simp only [viewerStep, MIN_ZOOM]
        norm_num
    have run : ∀ (ops : List ZoomOp) (s : ViewerState),
        MIN_ZOOM ≤ s.zoom → s.zoom ≤ MAX_ZOOM →
        MIN_ZOOM ≤ (ops.foldl viewerStep s).zoom ∧ (ops.foldl viewerStep s).zoom ≤ MAX_ZOOM := by
      intro ops
      induction ops with
      | nil => intro s h1 h2; exact ⟨h1, h2⟩
      | cons op rest ih =>
        intro s h1 h2
        obtain ⟨g1, g2⟩ := step s op h1 h2
        exact ih (viewerStep s op) g1 g2
    intro ops
    exact run ops initialViewerState (by norm_num [initialViewerState, MIN_ZOOM])
      (by norm_num [initialViewerState, MIN_ZOOM, MAX_ZOOM])
  · intro s _
    rfl

/-- Witness for C8 on a concrete transition sequence and a concrete
zoomed/panned state. -/
theorem viewer_zoom_clamped_witness :
    (MIN_ZOOM ≤ (runViewer [ZoomOp.zoomIn, ZoomOp.wheel 3, ZoomOp.zoomOut]).zoom ∧
     (runViewer [ZoomOp.zoomIn, ZoomOp.wheel 3, ZoomOp.zoomOut]).zoom ≤ MAX_ZOOM) ∧
    viewerStep { zoom := 2, position := (3, 4) } .reset = initialViewerState :=
  ⟨viewer_zoom_clamped.1 [ZoomOp.zoomIn, ZoomOp.wheel 3, ZoomOp.zoomOut],
   viewer_zoom_clamped.2 { zoom := 2, position := (3, 4) } (Or.inl (by norm_num))⟩

/-- C9: For every history and every id, toggleFavorite(id) flips the favorite
flag of exactly the entry whose id matches and leaves every other entry (its
id, encoded data, media type, aspect class, and favorite flag) and the list
order unchanged; if no entry has that id, the history is returned unchanged
(silent no-op). -/
theorem toggle_favorite_frame (h : List ImageFile) (tid : String)
    (hnodup : (h.map (·.id)).Nodup) :
    (toggleFavorite h tid).length = h.length ∧
    (∀ i (hi : i < h.length),
      (toggleFavorite h tid)[i]? =
        some (if (h.get ⟨i, hi⟩).id = tid
              then { h.get ⟨i, hi⟩ with isFavorite := !(h.get ⟨i, hi⟩).isFavorite }
              else h.get ⟨i, hi⟩)) ∧
    ((∀ e ∈ h, e.id ≠ tid) → toggleFavorite h tid = h) := by
  refine ⟨by simp [toggleFavorite], fun i hi => ?_, fun hno => ?_⟩
  · rw [toggleFavorite, List.getElem?_map, List.getElem?_eq_getElem hi]
    rfl
  · rw [toggleFavorite]
    rw [List.map_congr_left (fun e he => if_neg (hno e he))]
    exact List.map_id h

/-- Witness for C9 on concrete histories: toggling a present id keeps the
length, toggling an absent id is the identity. -/
theorem toggle_favorite_frame_witness :
    (toggleFavorite wFive "103").length = wFive.length ∧
    toggleFavorite wFive "999" = wFive := by
  refine ⟨(toggle_favorite_frame wFive "103" (by decide)).1, ?_⟩
  exact (toggle_favorite_frame wFive "999" (by decide)).2.2 (by decide)

/-- C10: when toggleFavorite(id) is applied and the current activeResult has
that same id, the activeResult's favorite flag is flipped as well, so after
any favorite toggle the activeResult and the history entry sharing its id
always carry equal favorite flags. -/
theorem toggle_favorite_sync (s : AppState) (tid : String) (g : ImageFile)
    (hg : s.generatedImage = some g) :
    (g.id = tid →
      (handleToggleFavorite s tid).generatedImage =
        some { g with isFavorite := !g.isFavorite }) ∧
    (∀ i (hi : i < s.history.length),
      (s.history.get ⟨i, hi⟩).id = g.id →
      (s.history.get ⟨i, hi⟩).isFavorite = g.isFavorite →
      (((handleToggleFavorite s tid).history)[i]?).map (·.isFavorite) =
        ((handleToggleFavorite s tid).generatedImage).map (·.isFavorite)) := by
  constructor
  · intro hid
    simp [handleToggleFavorite, hg, hid]
  · intro i hi hid hfav
    simp only [List.get_eq_getElem] at hid hfav
    rw [handleToggleFavorite]
    simp only [hg]
    rw [toggleFavorite, List.getElem?_map, List.getElem?_eq_getElem hi]
    simp only [Option.map_some']
    by_cases htid : g.id = tid
    · rw [if_pos htid, if_pos (hid.trans htid)]
      simp [hfav]
    · rw [if_neg htid, if_neg (fun c => htid (hid.symm.trans c))]
      simp [hfav]

/-- Witness for C10 on a concrete state whose active result is also in the
history. -/
theorem toggle_favorite_sync_witness :
    (handleToggleFavorite wSyncState "600").generatedImage =
      some { wNew with isFavorite := !wNew.isFavorite } ∧
    (((handleToggleFavorite wSyncState "600").history)[0]?).map (·.isFavorite) =
      ((handleToggleFavorite wSyncState "600").generatedImage).map (·.isFavorite) := by
  obtain ⟨h1, h2⟩ := toggle_favorite_sync wSyncState "600" wNew (by rfl)
  exact ⟨h1 (by decide), h2 0 (by decide) (by decide) (by decide)⟩

/-- C2: For every decoded input image with intrinsic width w and height h, the
ingestion pipeline outputs dimensions that never exceed 1024 on either axis
and never exceed the input's dimensions; if max(w,h) > 1024 both dimensions
are scaled proportionally with standard rounding so the longer edge equals
1024, and otherwise the dimensions are unchanged (no upscaling). -/
theorem ingestion_dimensions (w h : ℕ) (hw : 0 < w) (hh : 0 < h) :
    (resizeDimensions w h).1 ≤ 1024 ∧
    (resizeDimensions w h).2 ≤ 1024 ∧
    (resizeDimensions w h).1 ≤ w ∧
    (resizeDimensions w h).2 ≤ h ∧
    (1024 < max w h →
      resizeDimensions w h =
        (if h < w then (1024, (jsRound ((h * 1024 : ℚ) / w)).toNat)
         else ((jsRound ((w * 1024 : ℚ) / h)).toNat, 1024)) ∧
      max (resizeDimensions w h).1 (resizeDimensions w h).2 = 1024) ∧
    (max w h ≤ 1024 → resizeDimensions w h = (w, h)) := by
  by_cases hbig : 1024 < w ∨ 1024 < h
  · by_cases hlt : h < w
    · have hw1024 : 1024 < w := by omega
      have hwq : (0 : ℚ) < w := by exact_mod_cast hw
      have hhq : (0 : ℚ) < h := by exact_mod_cast hh
      have hltq : (h : ℚ) < w := by exact_mod_cast hlt
      have h1025 : (1025 : ℚ) ≤ w := by exact_mod_cast hw1024
      have hq1 : (h * 1024 : ℚ) / w < 1024 + 1/2 := by
        rw [div_lt_iff hwq]
        nlinarith
      have hq2 : (h * 1024 : ℚ) / w < h + 1/2 := by
        rw [div_lt_iff hwq]
        nlinarith
      have hb1 : (jsRound ((h * 1024 : ℚ) / w)).toNat ≤ 1024 :=
        jsRound_toNat_le (n := 1024) (by push_cast; linarith)
      have hb2 : (jsRound ((h * 1024 : ℚ) / w)).toNat ≤ h :=
        jsRound_toNat_le (n := h) (by push_cast; linarith)
      have heq : resizeDimensions w h = (1024, (jsRound ((h * 1024 : ℚ) / w)).toNat) := by
        rw [resizeDimensions, if_pos (show MAX_DIMENSION < w ∨ MAX_DIMENSION < h from hbig),
          if_pos hlt]
        norm_num [MAX_DIMENSION]
      rw [heq]
      refine ⟨le_refl 1024, hb1, by omega, hb2, fun _ => ⟨by rw [if_pos hlt], ?_⟩,
        fun hc => by omega⟩
      exact max_eq_left hb1
    · have hh1024 : 1024 < h := by omega
      have hwq : (0 : ℚ) < w := by exact_mod_cast hw
      have hhq : (0 : ℚ) < h := by exact_mod_cast hh
      have hleq : (w : ℚ) ≤ h := by exact_mod_cast Nat.not_lt.mp hlt
      have h1025 : (1025 : ℚ) ≤ h := by exact_mod_cast hh1024
      have hq1 : (w * 1024 : ℚ) / h < 1024 + 1/2 := by
        rw [div_lt_iff hhq]
        nlinarith
      have hq2 : (w * 1024 : ℚ) / h < w + 1/2 := by
        rw [div_lt_iff hhq]
        nlinarith
      have hb1 : (jsRound ((w * 1024 : ℚ) / h)).toNat ≤ 1024 :=
        jsRound_toNat_le (n := 1024) (by push_cast; linarith)
      have hb2 : (jsRound ((w * 1024 : ℚ) / h)).toNat ≤ w :=
        jsRound_toNat_le (n := w) (by push_cast; linarith)
      have heq : resizeDimensions w h = ((jsRound ((w * 1024 : ℚ) / h)).toNat, 1024) := by
        rw [resizeDimensions, if_pos (show MAX_DIMENSION < w ∨ MAX_DIMENSION < h from hbig),
          if_neg hlt]
        norm_num [MAX_DIMENSION]
      rw [heq]
      refine ⟨hb1, le_refl 1024, hb2, by omega, fun _ => ⟨by rw [if_neg hlt], ?_⟩,
        fun hc => by omega⟩
      exact max_eq_right hb1
  · have heq : resizeDimensions w h = (w, h) := by
      rw [resizeDimensions, if_neg (show ¬(MAX_DIMENSION < w ∨ MAX_DIMENSION < h) from hbig)]
    rw [heq]
    exact ⟨by omega, by omega, le_refl w, le_refl h, fun hc => absurd hc (by omega),
      fun _ => rfl⟩

/-- Witness for C2 at the spec's end-to-end example (2000×1000) and at a
small image (500×500). -/
theorem ingestion_dimensions_witness :
    (resizeDimensions 2000 1000).1 ≤ 1024 ∧
    (resizeDimensions 2000 1000).2 ≤ 1000 ∧
    resizeDimensions 500 500 = (500, 500) :=
  ⟨(ingestion_dimensions 2000 1000 (by norm_num) (by norm_num)).1,
   (ingestion_dimensions 2000 1000 (by norm_num) (by norm_num)).2.2.2.1,
   (ingestion_dimensions 500 500 (by norm_num) (by norm_num)).2.2.2.2.2 (by norm_num)⟩

/-- A prior generated result, on display when the failing generation starts. -/
def wPrior : ImageFile :=
  { id := "100", data := "prior", mimeType := "image/png", aspectRatio := .portrait, isFavorite := false }

/-- A sample model-slot image. -/
def wModel : ImageFile :=
  { id := "1", data := "m", mimeType := "image/jpeg", aspectRatio := .square, isFavorite := false }

/-- A sample garment-slot image. -/
def wGarment : ImageFile :=
  { id := "2", data := "g", mimeType := "image/jpeg", aspectRatio := .square, isFavorite := false }

/-- A session state with both slots occupied and a prior active result. -/
def wGenState : AppState :=
  { modelImage := some wModel
    garmentImage := some wGarment
    history := [wPrior]
    customPrompt := ""
    generatedImage := some wPrior
    isLoading := false
    error := none }

/-- Every failure of the generation collaborator carries a nonempty message. -/
theorem generate_error_nonempty {o : ApiOutcome} {msg : String}
    (he : generateVirtualTryOnImage o = .error msg) : msg ≠ "" := by
  cases o with
  | response parts =>
    rw [generateVirtualTryOnImage] at he
    rcases hfp : findImagePart parts with _ | d
    · rw [hfp] at he
      have hm := Except.error.inj he
      rw [← hm]
      decide
    · rw [hfp] at he
      exact absurd he (by simp)
  | errorRejection m =>
    have hm := Except.error.inj he
    rw [← hm]
    intro hc
    have hl := congrArg String.length hc
    rw [String.length_append] at hl
    have h26 : String.length "Failed to generate image: " = 26 := rfl
    have h0 : String.length "" = 0 := rfl
    omega
  | nonErrorRejection =>
    have hm := Except.error.inj he
    rw [← hm]
    decide

/-- Counterexample to C1 as stated: on a collaborator rejection the error
message is surfaced verbatim and the history is untouched, but the prior
`activeResult` is not preserved — `handleGenerate` clears it to `null` when
the attempt starts, so after the failure it differs from its prior value. -/
theorem generate_failure_cex :
    (handleGenerate wGenState 200 (generateVirtualTryOnImage (.errorRejection "boom"))).error =
      some "Failed to generate image: boom" ∧
    (handleGenerate wGenState 200 (generateVirtualTryOnImage (.errorRejection "boom"))).history =
      wGenState.history ∧
    (handleGenerate wGenState 200 (generateVirtualTryOnImage (.errorRejection "boom"))).generatedImage ≠
      wGenState.generatedImage := by
  decide

/-- C1 (amended): When generation fails (the collaborator's promise rejects),
the controller surfaces the collaborator's error message verbatim to the
user-visible error state and leaves the history unchanged; the active result
is cleared to none when the attempt starts, so after the failure it is none
rather than its prior value. -/
theorem generate_failure_amended (s : AppState) (now : ℕ) (o : ApiOutcome) (msg : String)
    (hm : s.modelImage.isSome) (hga : s.garmentImage.isSome)
    (he : generateVirtualTryOnImage o = .error msg) :
    (handleGenerate s now (generateVirtualTryOnImage o)).error = some msg ∧
    (handleGenerate s now (generateVirtualTryOnImage o)).history = s.history ∧
    (handleGenerate s now (generateVirtualTryOnImage o)).generatedImage = none := by
  obtain ⟨m, hm2⟩ := Option.isSome_iff_exists.mp hm
  obtain ⟨g, hg2⟩ := Option.isSome_iff_exists.mp hga
  have hne := generate_error_nonempty he
  simp only [handleGenerate, hm2, hg2, he]
  simp [jsOrElse, hne]

/-- Witness for the amended C1 at a concrete state and rejection. -/
theorem generate_failure_amended_witness :
    (handleGenerate wGenState 200 (generateVirtualTryOnImage (.errorRejection "boom"))).history =
      wGenState.history ∧
    (handleGenerate wGenState 200 (generateVirtualTryOnImage (.errorRejection "boom"))).generatedImage =
      none := by
  obtain ⟨h1, h2, h3⟩ := generate_failure_amended wGenState 200 (.errorRejection "boom")
    "Failed to generate image: boom" (by decide) (by decide) rfl
  exact ⟨h2, h3⟩

/-- C7: On successful generation (both slots occupied), the controller builds
a single new image record with aspectClass forced to portrait and favorite set
to false, sets it as activeResult, and inserts it at the front of history, so
activeResult and history[0] are the same new image. -/
theorem generate_success (s : AppState) (now : ℕ) (o : ApiOutcome) (r : GenResult)
    (hm : s.modelImage.isSome) (hga : s.garmentImage.isSome)
    (hok : generateVirtualTryOnImage o = .ok r) :
    ∃ newImage : ImageFile,
      (handleGenerate s now (generateVirtualTryOnImage o)).generatedImage = some newImage ∧
      (handleGenerate s now (generateVirtualTryOnImage o)).history =
        insertHistory newImage s.history ∧
      (handleGenerate s now (generateVirtualTryOnImage o)).history.head? = some newImage ∧
      newImage.aspectRatio = .portrait ∧
      newImage.isFavorite = false := by
  obtain ⟨m, hm2⟩ := Option.isSome_iff_exists.mp hm
  obtain ⟨g, hg2⟩ := Option.isSome_iff_exists.mp hga
  have hport : r.aspectRatio = .portrait := by
    cases o with
    | response parts =>
      rw [generateVirtualTryOnImage] at hok
      rcases hfp : findImagePart parts with _ | d
      · rw [hfp] at hok
        exact absurd hok (by simp)
      · rw [hfp] at hok
        rw [← Except.ok.inj hok]
    | errorRejection m2 => exact absurd hok (by simp [generateVirtualTryOnImage])
    | nonErrorRejection => exact absurd hok (by simp [generateVirtualTryOnImage])
  refine ⟨{ id := toString now, data := r.data, mimeType := r.mimeType,
            aspectRatio := r.aspectRatio, isFavorite := false }, ?_, ?_, ?_, hport, rfl⟩
  · simp only [handleGenerate, hm2, hg2, hok]
  · simp only [handleGenerate, hm2, hg2, hok]
  · simp only [handleGenerate, hm2, hg2, hok]
    simp [insertHistory]

/-- Witness for C7 on a concrete state and a concrete successful response:
the active result and the history head coincide and carry the portrait class. -/
theorem generate_success_witness :
    (handleGenerate wGenState 42
        (generateVirtualTryOnImage (.response [{ inlineData := some { data := "gen", mimeType := "image/png" } }]))).history.head? =
      (handleGenerate wGenState 42
        (generateVirtualTryOnImage (.response [{ inlineData := some { data := "gen", mimeType := "image/png" } }]))).generatedImage ∧
    ((handleGenerate wGenState 42
        (generateVirtualTryOnImage (.response [{ inlineData := some { data := "gen", mimeType := "image/png" } }]))).generatedImage).map
        (·.aspectRatio) = some AspectRatio.portrait := by
  obtain ⟨nI, h1, h2, h3, h4, h5⟩ := generate_success wGenState 42
    (.response [{ inlineData := some { data := "gen", mimeType := "image/png" } }])
    { data := "gen", mimeType := "image/png", aspectRatio := .portrait }
    (by decide) (by decide) rfl
  refine ⟨h3.trans h1.symm, ?_⟩
  rw [h1]
  simp [h4]

/-- After an in-place overwrite, the key's first match is the new binding. -/
theorem find?_map_replace (st : Store) (key : String) (v : JsValue)
    (hany : List.any st (fun kv => kv.1 == key) = true) :
    List.find? (fun kv => kv.1 == key)
        (List.map (fun kv => if kv.1 == key then (key, v) else kv) st) = some (key, v) := by
  induction st with
  | nil => simp at hany
  | cons kv rest ih =>
    rw [List.map_cons]
    by_cases hk : (kv.1 == key) = true
    · rw [if_pos hk]
      simp [List.find?_cons]
    · have hkf : (kv.1 == key) = false := by
        revert hk
        cases kv.1 == key <;> simp
      have hany2 : List.any rest (fun kv => kv.1 == key) = true := by
        rw [List.any_cons, hkf] at hany
        simpa using hany
      rw [if_neg hk]
      simp only [List.find?_cons, hkf]
      exact ih hany2

/-- Reading back a key just written returns the written value. -/
theorem getItem_setItem_self (st : Store) (key : String) (v : JsValue) :
    getItem (setItem st key v) key = some v := by
  rw [getItem, setItem]
  by_cases hany : List.any st (fun kv => kv.1 == key) = true
  · rw [if_pos hany, find?_map_replace st key v hany]
    rfl
  · rw [if_neg hany, List.find?_append]
    have hnone : List.find? (fun kv => kv.1 == key) st = none := by
      rw [List.find?_eq_none]
      intro x hx hpx
      exact hany (List.any_eq_true.mpr ⟨x, hx, hpx⟩)
    rw [hnone]
    simp [List.find?_cons]

/-- Reading back a key just removed returns nothing. -/
theorem getItem_removeItem_self (st : Store) (key : String) :
    getItem (removeItem st key) key = none := by
  rw [getItem, removeItem]
  have hnone : List.find? (fun kv => kv.1 == key)
      (List.filter (fun kv => kv.1 != key) st) = none := by
    rw [List.find?_eq_none]
    intro x hx hpx
    have := (List.mem_filter.mp hx).2
    simp_all
  rw [hnone]
  rfl

/-- Counterexample to C6 as stated: persisting `null` removes the key, so
loading it back yields the caller's default rather than a value equal to the
persisted one whenever that default differs from `null`. -/
theorem store_roundtrip_cex :
    loadState (persistState [] "k" JsValue.null) "k" (JsValue.str "d") = JsValue.str "d" ∧
    JsValue.str "d" ≠ JsValue.null :=
  ⟨rfl, fun hc => JsValue.noConfusion hc⟩

/-- C6 (amended): For every serializable value other than null and the
zero-length sequence, persisting it to the store under a key and then loading
that key returns an equal value; persisting null or a zero-length sequence
removes the persisted key entirely (rather than writing an empty
representation), so a subsequent load of that key returns the caller's
default. -/
theorem store_roundtrip_amended (st : Store) (key : String) (v deflt : JsValue) :
    (isEmptySentinel v = false → loadState (persistState st key v) key deflt = v) ∧
    (isEmptySentinel v = true →
      getItem (persistState st key v) key = none ∧
      loadState (persistState st key v) key deflt = deflt) := by
  constructor
  · intro hs
    rw [persistState, if_neg (by simp [hs])]
    simp only [loadState, getItem_setItem_self]
  · intro hs
    rw [persistState, if_pos hs]
    have hnone := getItem_removeItem_self st key
    exact ⟨hnone, by simp only [loadState, hnone]⟩

/-- Witness for the amended C6: a string value round-trips; persisting an
empty array removes an existing binding. -/
theorem store_roundtrip_amended_witness :
    loadState (persistState [] "k" (JsValue.str "x")) "k" JsValue.null = JsValue.str "x" ∧
    getItem (persistState [("k", JsValue.str "x")] "k" (JsValue.arr [])) "k" = none :=
  ⟨(store_roundtrip_amended [] "k" (JsValue.str "x") JsValue.null).1 rfl,
   ((store_roundtrip_amended [("k", JsValue.str "x")] "k" (JsValue.arr []) JsValue.null).2 rfl).1⟩

/-- The display-order relation the spec describes: favorited entries strictly
before non-favorited ones; within a group, descending numeric id. -/
def displayLe (a b : ImageFile) : Prop :=
  (a.isFavorite = true ∧ b.isFavorite = false) ∨
  (a.isFavorite = b.isFavorite ∧ (parseIntDec b.id).getD 0 ≤ (parseIntDec a.id).getD 0)

/-- The history comparator is total: some side always compares nonpositive. -/
theorem compare_le_total (a b : ImageFile) :
    compareHistory a b ≤ 0 ∨ compareHistory b a ≤ 0 := by
  rw [compareHistory, compareHistory]
  rcases hb : parseIntDec b.id with _ | nb <;> rcases ha : parseIntDec a.id with _ | na <;>
    cases hfa : a.isFavorite <;> cases hfb : b.isFavorite <;> simp <;> omega

/-- On entries with numeric ids the history comparator is transitive. -/
theorem compare_le_trans_numeric {a b c : ImageFile}
    (ha : (parseIntDec a.id).isSome = true) (hb : (parseIntDec b.id).isSome = true)
    (hc : (parseIntDec c.id).isSome = true)
    (h1 : compareHistory a b ≤ 0) (h2 : compareHistory b c ≤ 0) :
    compareHistory a c ≤ 0 := by
  obtain ⟨na, hna⟩ := Option.isSome_iff_exists.mp ha
  obtain ⟨nb, hnb⟩ := Option.isSome_iff_exists.mp hb
  obtain ⟨nc, hnc⟩ := Option.isSome_iff_exists.mp hc
  rw [compareHistory, hna, hnb] at h1
  rw [compareHistory, hnb, hnc] at h2
  rw [compareHistory, hna, hnc]
  cases hfa : a.isFavorite <;> cases hfb : b.isFavorite <;> cases hfc : c.isFavorite <;>
    simp_all <;> omega

/-- On entries with numeric ids a nonpositive comparison means the spec's
display order. -/
theorem compare_le_displayLe {a b : ImageFile}
    (ha : (parseIntDec a.id).isSome = true) (hb : (parseIntDec b.id).isSome = true)
    (h : compareHistory a b ≤ 0) : displayLe a b := by
  obtain ⟨na, hna⟩ := Option.isSome_iff_exists.mp ha
  obtain ⟨nb, hnb⟩ := Option.isSome_iff_exists.mp hb
  rw [compareHistory, hna, hnb] at h
  rw [displayLe, hna, hnb]
  cases hfa : a.isFavorite <;> cases hfb : b.isFavorite <;> simp_all <;> omega

/-- The claim's concrete entry with id "3", not favorited. -/
def wEntry3 : ImageFile :=
  { id := "3", data := "d3", mimeType := "image/jpeg", aspectRatio := .portrait, isFavorite := false }

/-- The claim's concrete entry with id "1", favorited. -/
def wEntry1 : ImageFile :=
  { id := "1", data := "d1", mimeType := "image/jpeg", aspectRatio := .portrait, isFavorite := true }

/-- The claim's concrete entry with id "2", not favorited. -/
def wEntry2 : ImageFile :=
  { id := "2", data := "d2", mimeType := "image/jpeg", aspectRatio := .portrait, isFavorite := false }

/-- A tie entry: same numeric id and favorite flag as `wTie2`. -/
def wTie1 : ImageFile :=
  { id := "7", data := "t1", mimeType := "image/jpeg", aspectRatio := .portrait, isFavorite := false }

/-- A tie entry: same numeric id and favorite flag as `wTie1`. -/
def wTie2 : ImageFile :=
  { id := "7", data := "t2", mimeType := "image/jpeg", aspectRatio := .portrait, isFavorite := false }

/-- C5: The derived display order of the history sorts all favorited entries
before all non-favorited entries and, within each group, sorts by descending
numeric value of id, with ties preserving original insertion order (stable
sort); in particular, for entries with ids [3,1,2] and favorite flags
[false,true,false] the derived order is [1,3,2]. -/
theorem display_order (h : List ImageFile) :
    List.Perm (sortedHistory h) h ∧
    ((∀ a ∈ h, (parseIntDec a.id).isSome = true) →
      (sortedHistory h).Pairwise displayLe ∧
      ∀ a b : ImageFile, compareHistory a b = 0 → List.Sublist [a, b] h → List.Sublist [a, b] (sortedHistory h)) ∧
    sortedHistory [wEntry3, wEntry1, wEntry2] = [wEntry1, wEntry3, wEntry2] := by
  refine ⟨List.mergeSort_perm h _, fun hnum => ?_, ?_⟩
  · have htrans : ∀ x y z : { e : ImageFile // e ∈ h },
        decide (compareHistory x.1 y.1 ≤ 0) = true →
        decide (compareHistory y.1 z.1 ≤ 0) = true →
        decide (compareHistory x.1 z.1 ≤ 0) = true := by
      intro x y z h1 h2
      rw [decide_eq_true_iff] at h1 h2 ⊢
      exact compare_le_trans_numeric (hnum x.1 x.2) (hnum y.1 y.2) (hnum z.1 z.2) h1 h2
    have htotal : ∀ x y : { e : ImageFile // e ∈ h },
        (decide (compareHistory x.1 y.1 ≤ 0) || decide (compareHistory y.1 x.1 ≤ 0)) = true := by
      intro x y
      rcases compare_le_total x.1 y.1 with hx | hx <;> simp [hx]
    have hmap : (h.attach.mergeSort fun x y => decide (compareHistory x.1 y.1 ≤ 0)).map
          Subtype.val = sortedHistory h := by
      rw [sortedHistory,
        List.map_mergeSort (s := fun a b => decide (compareHistory a b ≤ 0)) (fun a _ b _ => rfl),
        List.attach_map_subtype_val]
    constructor
    · rw [← hmap, List.pairwise_map]
      have hsorted := List.sorted_mergeSort htrans htotal h.attach
      refine hsorted.imp ?_
      intro x y hxy
      rw [decide_eq_true_iff] at hxy
      exact compare_le_displayLe (hnum x.1 x.2) (hnum y.1 y.2) hxy
    · intro a b hcmp hsub
      rw [← List.attach_map_subtype_val h] at hsub
      obtain ⟨l2, hl2, hmap2⟩ := List.sublist_map_iff.mp hsub
      match l2, hmap2 with
      | [x, y], hmap2 =>
        have hx : x.1 = a := by
          simpa using congrArg (fun l => l.head?) hmap2.symm
        have hy : y.1 = b := by
          simpa using congrArg (fun l => l.getLast?) hmap2.symm
        have hpair := List.pair_sublist_mergeSort htrans htotal
          (by rw [decide_eq_true_iff, hx, hy, hcmp]) hl2
        have := hpair.map Subtype.val
        rw [hmap, List.map_cons, List.map_cons, List.map_nil, hx, hy] at this
        exact this
  · simp [sortedHistory, List.mergeSort, List.splitInTwo, List.splitAt, List.splitAt.go,
      List.merge, compareHistory, parseIntDec, wEntry1, wEntry2, wEntry3]

/-- Witness for C5: the permutation on the claim's example list; sortedness
and tie preservation on a concrete two-entry history whose entries share the
numeric id "7" and the same favorite flag. -/
theorem display_order_witness :
    List.Perm (sortedHistory [wEntry3, wEntry1, wEntry2]) [wEntry3, wEntry1, wEntry2] ∧
    (sortedHistory [wTie1, wTie2]).Pairwise displayLe ∧
    List.Sublist [wTie1, wTie2] (sortedHistory [wTie1, wTie2]) :=
  ⟨(display_order [wEntry3, wEntry1, wEntry2]).1,
   ((display_order [wTie1, wTie2]).2.1 (by decide)).1,
   ((display_order [wTie1, wTie2]).2.1 (by decide)).2 wTie1 wTie2 (by decide)
     (List.Sublist.refl _)⟩

end VTO
